import Mathlib

/-!
# CocktailAI inventory ledger: a shallow embedding

This file embeds the inventory ledger and reconciliation engine of the
CocktailAI backend (a Django/DRF application) and proves properties of it.

Sources embedded here:
* `src/backend/inventory/models.py` — the data model: `InventoryTransaction`
  (with its field validators and its `clean` method), `InventoryItem`
  (the per product-and-location stock row), `InventoryCount`,
  `InventoryCountItem`, `Order`, `OrderItem`.
* `src/backend/inventory/signals.py` — the signal handlers
  `update_inventory_on_transaction`, `handle_completed_count`,
  `set_completed_date`, `create_count_items_for_received_order`.
* `src/backend/api/serializers.py` — `InventoryTransactionSerializer.validate`
  and `InventoryCountItemUpdateSerializer` (validate and update).
* `src/backend/api/views.py` — `OrderViewSet.place` and `OrderViewSet.receive`.

Conventions of the embedding:
* Django `DecimalField` quantities and prices are embedded as rationals (ℚ).
* Dates and datetimes are embedded as natural numbers (a day or an instant
  counter); the current date or time is passed in explicitly.
* Database rows are plain records; foreign keys are numeric identifiers.
* The stock table (`InventoryItem` rows) is a total function from
  (product, location) to quantity: a pair with no row is the lazily-created
  row with quantity 0, exactly matching the get-or-create-with-default-0
  calls in the source.
* A Python code path that raises is embedded with `Except`: attribute access
  on a field the model does not define raises `AttributeError`, passing a
  keyword that is not a model field to `objects.create` raises `TypeError`,
  and saving NULL into a NOT NULL column raises an integrity error.
-/

deriving instance DecidableEq for Except

namespace CocktailAI

abbrev ProductId := Nat
abbrev LocationId := Nat
abbrev UserId := Nat

/-- Quantities and money amounts: `DecimalField(max_digits=10, decimal_places=2)`.
Embedded as rationals; the source only adds, subtracts, negates, takes
absolute values and compares, all of which ℚ models exactly. -/
abbrev Qty := ℚ

/-- `InventoryTransaction.TRANSACTION_TYPE_CHOICES` in
`src/backend/inventory/models.py`. -/
inductive TransactionType
  | received
  | sold
  | transferred
  | adjustment
  | count
deriving DecidableEq

/-- A runtime error of the Python layer, used where the source would raise
outside of its own validation vocabulary. -/
inductive PyError
  | attributeError
  | typeError
  | integrityError
deriving DecidableEq

/-- The `InventoryTransaction` model (`src/backend/inventory/models.py`):
the fields the ledger logic reads.  `transaction_id`, `transaction_date`
and the `BaseModel` audit columns play no role in any embedded computation
and are omitted. -/
structure InventoryTransaction where
  transaction_type : TransactionType
  product : ProductId
  location : LocationId
  destination_location : Option LocationId
  quantity : Qty
  unit_price : Qty
  reference : String
  notes : String
  performed_by : UserId
deriving DecidableEq

/-- `InventoryTransaction.total_value`: `abs(self.quantity) * self.unit_price`. -/
def InventoryTransaction.total_value (t : InventoryTransaction) : Qty :=
  |t.quantity| * t.unit_price

/-! ## Transaction creation validation (claim C1)

Three layers of the source constrain a request to create a transaction:

1. the model field `quantity = DecimalField(..., validators=[MinValueValidator(0)], ...)`
   (`models.py`, in the cited 389–446 range).  A DRF `ModelSerializer` copies a
   model field validator that is not translated into a keyword argument onto
   the generated serializer field (`MinValueValidator` is only translated for
   integer and float fields, not for decimal fields), and field-level
   validators run before the serializer-level `validate` method;
2. `InventoryTransactionSerializer.validate` (`serializers.py` 494–533);
3. `InventoryTransaction.clean` (`models.py` 426–446), which Django runs on
   `full_clean` but which DRF create does not call.
-/

/-- The `MinValueValidator(0)` attached to `InventoryTransaction.quantity` in
`models.py`, as it runs on the serializer field (field-level validation). -/
def quantityMinValueValidator (quantity : Qty) : Except String Unit :=
  if quantity < 0 then
    .error "Ensure this value is greater than or equal to 0."
  else
    .ok ()

/-- `InventoryTransactionSerializer.validate` (`src/backend/api/serializers.py`
lines 494–533), translated branch by branch.  A raise ends execution, so the
Python if/elif chain is a sequence of guarded errors. -/
def InventoryTransactionSerializer.validate (transaction_type : TransactionType)
    (quantity : Qty) (location : LocationId)
    (destination_location : Option LocationId) : Except String Unit :=
  if (transaction_type = .sold ∨ transaction_type = .transferred) ∧ 0 ≤ quantity then
    .error "Quantity must be negative for sold and transferred transactions."
  else if transaction_type = .received ∧ quantity ≤ 0 then
    .error "Quantity must be positive for received transactions."
  else if transaction_type = .transferred ∧ destination_location = none then
    .error "Destination location is required for transfers."
  else if transaction_type = .transferred ∧ destination_location = some location then
    .error "Destination location must be different from source location."
  else
    .ok ()

/-- `InventoryTransaction.clean` (`src/backend/inventory/models.py` lines
426–446), translated raise by raise in source order. -/
def InventoryTransaction.clean (transaction_type : TransactionType)
    (quantity : Qty) (location : LocationId)
    (destination_location : Option LocationId) : Except String Unit :=
  if transaction_type = .transferred ∧ destination_location = none then
    .error "Destination location is required for transfers."
  else if transaction_type = .transferred ∧ destination_location = some location then
    .error "Destination location must be different from source location."
  else if (transaction_type = .sold ∨ transaction_type = .transferred) ∧ 0 ≤ quantity then
    .error "Quantity must be negative for sold and transferred transactions."
  else if transaction_type = .received ∧ quantity ≤ 0 then
    .error "Quantity must be positive for received transactions."
  else
    .ok ()

/-- The outcome of an API request to create an inventory transaction:
the serializer runs field-level validators first (which include the
model-field `MinValueValidator(0)` on `quantity`), then its own `validate`. -/
def createTransactionRequest (transaction_type : TransactionType)
    (quantity : Qty) (location : LocationId)
    (destination_location : Option LocationId) : Except String Unit := do
  quantityMinValueValidator quantity
  InventoryTransactionSerializer.validate transaction_type quantity location
    destination_location

/-- The sign and transfer rules as the specification states them: quantity
strictly negative for sold and transferred, strictly positive for received,
either sign for adjustment and count; a transfer needs a destination
different from the source. -/
def violatesSignTransferRules (transaction_type : TransactionType)
    (quantity : Qty) (location : LocationId)
    (destination_location : Option LocationId) : Bool :=
  decide ((transaction_type = .sold ∨ transaction_type = .transferred) ∧ 0 ≤ quantity)
  || decide (transaction_type = .received ∧ quantity ≤ 0)
  || decide (transaction_type = .transferred ∧
       (destination_location = none ∨ destination_location = some location))

/-- C1: the claim says a creation request is rejected if and only if it
violates the sign and transfer rules.  It is not so: a sold request with the
required strictly negative quantity violates no rule, the serializer-level
validate accepts it and the model-level clean accepts it, yet the request is
rejected, because the model field declares MinValueValidator(0) on quantity
and the serializer field inherits it.  The same field validator contradicts
the model clean method (and the field help text, which asks for negative
values on transfers and sales), so every sold or transferred creation request
is rejected one way or the other. -/
theorem c1_valid_sold_request_is_rejected :
    violatesSignTransferRules .sold (-5) 1 none = false
    ∧ InventoryTransactionSerializer.validate .sold (-5) 1 none = .ok ()
    ∧ InventoryTransaction.clean .sold (-5) 1 none = .ok ()
    ∧ createTransactionRequest .sold (-5) 1 none
        = .error "Ensure this value is greater than or equal to 0." := by
  refine ⟨by decide, by decide, by decide, by decide⟩

/-! ## The stock ledger engine (claims C3, C4, C5, C9)

`update_inventory_on_transaction` (`src/backend/inventory/signals.py` lines
16–70) fires on every created `InventoryTransaction` and mutates the
`InventoryItem` rows.  The stock table is a total function from
(product, location) to quantity; a missing row behaves as the
get-or-create default of 0.  In the transfer branch both rows are read
before either is written (two separate get-or-create calls precede the two
increments), and the destination row is saved last. -/

abbrev Stock := ProductId × LocationId → Qty

/-- `update_inventory_on_transaction` (`signals.py` 16–70), for a created
transaction.  The branch guard is the Python
`instance.transaction_type == "transferred" and instance.destination_location`:
a transferred transaction with no destination falls through to the
all-other-types branch. -/
def update_inventory_on_transaction (stock : Stock) (t : InventoryTransaction) :
    Stock :=
  if h : t.transaction_type = .transferred ∧ t.destination_location.isSome then
    let dest := t.destination_location.get h.2
    let sourceQty := stock (t.product, t.location) + t.quantity
    let destQty := stock (t.product, dest) + |t.quantity|
    fun key =>
      if key = (t.product, dest) then destQty
      else if key = (t.product, t.location) then sourceQty
      else stock key
  else
    let newQty := stock (t.product, t.location) + t.quantity
    let clamped :=
      if newQty < 0 ∧ t.transaction_type ≠ .adjustment then 0 else newQty
    fun key =>
      if key = (t.product, t.location) then clamped else stock key

/-- The stock table with no rows: every pair reads as the lazily-created 0. -/
def emptyStock : Stock := fun _ => 0

/-- The live stock table after a history of created transactions, oldest
first: each creation fires the signal handler once. -/
def applyAll (txns : List InventoryTransaction) : Stock :=
  txns.foldl update_inventory_on_transaction emptyStock

/-- One step of the replay rule stated by the specification for a single
(product, location) pair: add the signed quantity, clamping a negative
result to zero for non-adjustment types. -/
def replayStep (q : Qty) (t : InventoryTransaction) : Qty :=
  let r := q + t.quantity
  if r < 0 ∧ t.transaction_type ≠ .adjustment then 0 else r

/-- The reconstruction the specification claims: fold the replay rule, from
0, over the transactions of the pair (those whose product and source
location match) in creation order. -/
def replay (txns : List InventoryTransaction) (p : ProductId) (l : LocationId) :
    Qty :=
  (txns.filter fun t => decide (t.product = p ∧ t.location = l)).foldl replayStep 0

/-- Unfolding of the engine on a transfer transaction.  Helper for the
claims about transfers. -/
theorem update_transfer_eq (stock : Stock) (t : InventoryTransaction)
    (dest : LocationId) (htype : t.transaction_type = .transferred)
    (hdest : t.destination_location = some dest) :
    update_inventory_on_transaction stock t = fun key =>
      if key = (t.product, dest) then stock (t.product, dest) + |t.quantity|
      else if key = (t.product, t.location) then
        stock (t.product, t.location) + t.quantity
      else stock key := by
  have hsome : t.destination_location.isSome := by simp [hdest]
  rw [update_inventory_on_transaction, dif_pos ⟨htype, hsome⟩]
  funext key
  simp [hdest]

/-- Unfolding of the engine on a non-transfer transaction.  Helper for the
claims about the other transaction types. -/
theorem update_other_eq (stock : Stock) (t : InventoryTransaction)
    (htype : t.transaction_type ≠ .transferred) :
    update_inventory_on_transaction stock t = fun key =>
      if key = (t.product, t.location) then
        (if stock (t.product, t.location) + t.quantity < 0
            ∧ t.transaction_type ≠ .adjustment then 0
         else stock (t.product, t.location) + t.quantity)
      else stock key := by
  rw [update_inventory_on_transaction, dif_neg]
  exact fun hc => htype hc.1

/-- C4: an applied transfer moves quantity from the source row to the
destination row: the source becomes s + quantity (quantity is negative),
the destination becomes d + abs(quantity), and the sum of the two rows is
unchanged. -/
theorem c4_transfer_moves_stock (stock : Stock) (t : InventoryTransaction)
    (dest : LocationId) (htype : t.transaction_type = .transferred)
    (hdest : t.destination_location = some dest) (hne : dest ≠ t.location)
    (hneg : t.quantity < 0) :
    update_inventory_on_transaction stock t (t.product, t.location)
        = stock (t.product, t.location) + t.quantity
    ∧ update_inventory_on_transaction stock t (t.product, dest)
        = stock (t.product, dest) + |t.quantity|
    ∧ update_inventory_on_transaction stock t (t.product, t.location)
        + update_inventory_on_transaction stock t (t.product, dest)
        = stock (t.product, t.location) + stock (t.product, dest) := by
  have hkey : ((t.product, t.location) : ProductId × LocationId) ≠ (t.product, dest) := by
    simp [Prod.ext_iff]
    exact fun h => absurd h.symm hne
  have e1 : update_inventory_on_transaction stock t (t.product, t.location)
      = stock (t.product, t.location) + t.quantity := by
    rw [update_transfer_eq stock t dest htype hdest]
    simp [hkey]
  have e2 : update_inventory_on_transaction stock t (t.product, dest)
      = stock (t.product, dest) + |t.quantity| := by
    rw [update_transfer_eq stock t dest htype hdest]
    simp
  refine ⟨e1, e2, ?_⟩
  rw [e1, e2, abs_of_neg hneg]
  ring

/-- The concrete scenario of claim C4: product 1 has stock 20 at location 1
and 0 at location 2. -/
def c4stock : Stock := fun key => if key = (1, 1) then 20 else 0

/-- The concrete transfer of claim C4: 5 units from location 1 to location 2,
recorded with the negative quantity the sign convention requires. -/
def c4txn : InventoryTransaction :=
  { transaction_type := .transferred
    product := 1
    location := 1
    destination_location := some 2
    quantity := -5
    unit_price := 10
    reference := ""
    notes := ""
    performed_by := 1 }

/-- Witness for C4: the 20-at-A, 0-at-B, transfer −5 scenario ends with 15
at the source and 5 at the destination. -/
theorem c4_transfer_moves_stock_witness :
    update_inventory_on_transaction c4stock c4txn (1, 1) = 15
    ∧ update_inventory_on_transaction c4stock c4txn (1, 2) = 5 := by
  have h := c4_transfer_moves_stock c4stock c4txn 2 rfl rfl (by decide) (by decide)
  refine ⟨h.1.trans ?_, h.2.1.trans ?_⟩ <;> norm_num [c4stock, c4txn]

/-- C5: an applied non-transfer transaction adds its signed quantity to the
stored quantity as-is, a negative result is clamped to zero unless the type
is adjustment, and only an adjustment can leave the stored quantity
negative. -/
theorem c5_nontransfer_add_and_clamp (stock : Stock) (t : InventoryTransaction)
    (htype : t.transaction_type ≠ .transferred) :
    update_inventory_on_transaction stock t (t.product, t.location)
      = (if stock (t.product, t.location) + t.quantity < 0
            ∧ t.transaction_type ≠ .adjustment then 0
         else stock (t.product, t.location) + t.quantity)
    ∧ (update_inventory_on_transaction stock t (t.product, t.location) < 0 →
        t.transaction_type = .adjustment) := by
  rw [update_other_eq stock t htype]
  simp only [if_pos rfl]
  refine ⟨rfl, ?_⟩
  by_cases hc : stock (t.product, t.location) + t.quantity < 0
      ∧ t.transaction_type ≠ .adjustment
  · rw [if_pos hc]
    intro h
    exact absurd h (lt_irrefl 0)
  · rw [if_neg hc]
    intro hlt
    by_contra hadj
    exact hc ⟨hlt, hadj⟩

/-- A sale of 5 units of product 1 at location 1, quantity recorded negative
per the sign convention. -/
def c5txn : InventoryTransaction :=
  { transaction_type := .sold
    product := 1
    location := 1
    destination_location := none
    quantity := -5
    unit_price := 10
    reference := ""
    notes := ""
    performed_by := 1 }

/-- The stock table for the C5 witness: 3 units of product 1 at location 1. -/
def c5stock : Stock := fun key => if key = (1, 1) then 3 else 0

/-- Witness for C5: selling 5 from a stock of 3 clamps the row to 0 rather
than storing −2, because the type is sold, not adjustment. -/
theorem c5_nontransfer_add_and_clamp_witness :
    update_inventory_on_transaction c5stock c5txn (1, 1) = 0 := by
  have h := (c5_nontransfer_add_and_clamp c5stock c5txn (by decide)).1
  refine h.trans ?_
  norm_num [c5stock, c5txn]
  decide

/-- C9: the zero-floor clamp is not applied on either row of a transfer: the
source row keeps s + quantity even when that is negative, and the
destination still gains the full abs(quantity). -/
theorem c9_transfer_not_clamped (stock : Stock) (t : InventoryTransaction)
    (dest : LocationId) (htype : t.transaction_type = .transferred)
    (hdest : t.destination_location = some dest) (hne : dest ≠ t.location) :
    update_inventory_on_transaction stock t (t.product, t.location)
        = stock (t.product, t.location) + t.quantity
    ∧ update_inventory_on_transaction stock t (t.product, dest)
        = stock (t.product, dest) + |t.quantity|
    ∧ (stock (t.product, t.location) + t.quantity < 0 →
        update_inventory_on_transaction stock t (t.product, t.location) < 0) := by
  rw [update_transfer_eq stock t dest htype hdest]
  have hkey : ((t.product, t.location) : ProductId × LocationId) ≠ (t.product, dest) := by
    simp [Prod.ext_iff]
    exact fun h => absurd h.symm hne
  refine ⟨by simp [hkey], by simp, ?_⟩
  simp only [hkey, if_neg hkey, if_pos rfl]
  exact id

/-- The stock table for the C9 witness: 3 units of product 1 at location 1,
none at location 2. -/
def c9stock : Stock := fun key => if key = (1, 1) then 3 else 0

/-- A transfer of 5 units of product 1 from location 1 to location 2, more
than the source holds. -/
def c9txn : InventoryTransaction :=
  { transaction_type := .transferred
    product := 1
    location := 1
    destination_location := some 2
    quantity := -5
    unit_price := 10
    reference := ""
    notes := ""
    performed_by := 1 }

/-- Witness for C9: transferring 5 out of a stock of 3 stores −2 at the
source (no clamp) while the destination still gains 5. -/
theorem c9_transfer_not_clamped_witness :
    update_inventory_on_transaction c9stock c9txn (1, 1) = -2
    ∧ update_inventory_on_transaction c9stock c9txn (1, 2) = 5 := by
  have h := c9_transfer_not_clamped c9stock c9txn 2 rfl rfl (by decide)
  refine ⟨h.1.trans ?_, h.2.1.trans ?_⟩ <;> norm_num [c9stock, c9txn]

/-! ## Replaying the ledger (claim C3)

The specification claims the live stock row of every (product, location)
pair equals the fold of the per-pair replay rule over the transactions of
the pair.  A transfer breaks this: the engine credits the destination row,
but the transfer transaction carries the source as its location, so the
replay of the destination pair never sees it. -/

/-- A transfer of 5 units of product 1 from location 1 to location 2, used
to refute the replay claim. -/
def c3txn : InventoryTransaction :=
  { transaction_type := .transferred
    product := 1
    location := 1
    destination_location := some 2
    quantity := -5
    unit_price := 10
    reference := ""
    notes := ""
    performed_by := 1 }

/-- Counterexample to C3 as stated: after the single-transfer history, the
replay of pair (product 1, location 2) yields 0 — the transfer is filed
under its source location, so the filter keeps nothing — while the live
stock row of that pair holds 5. -/
theorem c3_replay_counterexample :
    replay [c3txn] 1 2 = 0
    ∧ applyAll [c3txn] (1, 2) = 5
    ∧ replay [c3txn] 1 2 ≠ applyAll [c3txn] (1, 2) := by
  have h1 : replay [c3txn] 1 2 = 0 := by
    norm_num [replay, c3txn]
  have h2 : applyAll [c3txn] (1, 2) = 5 := by
    have e := update_transfer_eq emptyStock c3txn 2 rfl rfl
    have : applyAll [c3txn] (1, 2)
        = update_inventory_on_transaction emptyStock c3txn (1, 2) := rfl
    rw [this, e]
    norm_num [c3txn, emptyStock]
  refine ⟨h1, h2, ?_⟩
  rw [h1, h2]
  norm_num

/-- Amended C3: for a history that contains no transferred transaction, the
replay of every (product, location) pair from 0 equals the live stock row.
Generalised over the starting stock table for the induction. -/
theorem replay_eq_applyAll_aux (txns : List InventoryTransaction)
    (stock : Stock) (p : ProductId) (l : LocationId)
    (h : ∀ t ∈ txns, t.transaction_type ≠ .transferred) :
    (txns.filter fun t => decide (t.product = p ∧ t.location = l)).foldl
        replayStep (stock (p, l))
      = txns.foldl update_inventory_on_transaction stock (p, l) := by
  induction txns generalizing stock with
  | nil => rfl
  | cons t rest ih =>
    have ht : t.transaction_type ≠ .transferred := h t (List.mem_cons_self t rest)
    have hrest : ∀ u ∈ rest, u.transaction_type ≠ .transferred :=
      fun u hu => h u (List.mem_cons_of_mem t hu)
    have hupd := update_other_eq stock t ht
    by_cases hm : t.product = p ∧ t.location = l
    · obtain ⟨hp, hl⟩ := hm
      subst hp
      subst hl
      rw [List.filter_cons_of_pos (by simp), List.foldl_cons, List.foldl_cons]
      have hstep : replayStep (stock (t.product, t.location)) t
          = update_inventory_on_transaction stock t (t.product, t.location) := by
        rw [hupd]
        exact (if_pos rfl).symm
      rw [hstep]
      exact ih _ hrest
    · have hkey : ((p, l) : ProductId × LocationId) ≠ (t.product, t.location) := by
        intro he
        rw [Prod.mk.injEq] at he
        exact hm ⟨he.1.symm, he.2.symm⟩
      rw [List.filter_cons_of_neg (by simpa using hm), List.foldl_cons]
      have hsame : update_inventory_on_transaction stock t (p, l) = stock (p, l) := by
        rw [hupd]
        exact if_neg hkey
      rw [← hsame]
      exact ih _ hrest

/-- C3 amended: restricted to histories without transfers, replaying the
transactions of a (product, location) pair from an empty stock of 0
reconstructs exactly the live stock row. -/
theorem c3_replay_reconstructs_without_transfers
    (txns : List InventoryTransaction) (p : ProductId) (l : LocationId)
    (h : ∀ t ∈ txns, t.transaction_type ≠ .transferred) :
    replay txns p l = applyAll txns (p, l) :=
  replay_eq_applyAll_aux txns emptyStock p l h

/-- A short transfer-free history for the C3 witness: receive 10 of product
1 at location 1, sell 4, then an adjustment of −8 that drives the row
negative (no clamp for adjustments). -/
def c3history : List InventoryTransaction :=
  [ { transaction_type := .received, product := 1, location := 1,
      destination_location := none, quantity := 10, unit_price := 2,
      reference := "", notes := "", performed_by := 1 },
    { transaction_type := .sold, product := 1, location := 1,
      destination_location := none, quantity := -4, unit_price := 3,
      reference := "", notes := "", performed_by := 1 },
    { transaction_type := .adjustment, product := 1, location := 1,
      destination_location := none, quantity := -8, unit_price := 2,
      reference := "", notes := "", performed_by := 1 } ]

/-- Witness for the amended C3: on the concrete transfer-free history the
replay equals the live row, and both are −2. -/
theorem c3_replay_reconstructs_witness :
    replay c3history 1 1 = applyAll c3history (1, 1)
    ∧ replay c3history 1 1 = -2 := by
  have h := c3_replay_reconstructs_without_transfers c3history 1 1 (by decide)
  refine ⟨h, ?_⟩
  norm_num [replay, replayStep, c3history]

/-! ## The inventory count workflow (claims C6, C10)

`InventoryCount` and `InventoryCountItem` (`models.py`), the `pre_save`
handler `set_completed_date` (`signals.py` 103–119) and the `post_save`
handler `handle_completed_count` (`signals.py` 73–100). -/

/-- `InventoryCount.STATUS_CHOICES`. -/
inductive CountStatus
  | in_progress
  | completed
  | cancelled
deriving DecidableEq

/-- An `InventoryCountItem` row: the fields the count workflow reads. -/
structure InventoryCountItem where
  product : ProductId
  expected_quantity : Qty
  counted_quantity : Option Qty
  is_counted : Bool
  counted_by : Option UserId
  counted_at : Option Nat
  notes : String
deriving DecidableEq

/-- The `variance` property of `InventoryCountItem` (`models.py`): counted
minus expected when the item is counted and has a counted quantity, `None`
otherwise. -/
def InventoryCountItem.variance (i : InventoryCountItem) : Option Qty :=
  if i.is_counted ∧ i.counted_quantity.isSome then
    some (i.counted_quantity.getD 0 - i.expected_quantity)
  else
    none

/-- An `InventoryCount` row with its owned `count_items`. -/
structure InventoryCount where
  name : String
  location : LocationId
  status : CountStatus
  scheduled_date : Option Nat
  completed_date : Option Nat
  created_by : UserId
  completed_by : Option UserId
  notes : String
  count_items : List InventoryCountItem
deriving DecidableEq

/-- `set_completed_date` (`signals.py` 103–119): the `pre_save` handler on
an update save (the instance has a primary key, `original` is the stored
row).  If the status changed to completed, the completed date is set to the
current time. -/
def set_completed_date (original inst : InventoryCount) (now : Nat) :
    InventoryCount :=
  if original.status ≠ .completed ∧ inst.status = .completed then
    { inst with completed_date := some now }
  else
    inst

/-- The loop body of `handle_completed_count` over the items with
`is_counted = True`: for `count_item.variance != 0`, a `None` variance
passes the Python test (`None != 0` is true), so the handler then tries to
create a transaction with `quantity=None`, which fails when the NOT NULL
quantity column is written.  A zero variance creates nothing; a non-zero
one creates an adjustment transaction with the variance as quantity, the
current unit price of the product, and the location of the count. -/
def processCountItems (c : InventoryCount) (unit_price : ProductId → Qty) :
    List InventoryCountItem → Except PyError (List InventoryTransaction)
  | [] => .ok []
  | i :: rest =>
    match i.variance with
    | none => .error .integrityError
    | some v =>
      if v ≠ 0 then
        match processCountItems c unit_price rest with
        | .error e => .error e
        | .ok txns =>
          .ok ({ transaction_type := .adjustment
                 product := i.product
                 location := c.location
                 destination_location := none
                 quantity := v
                 unit_price := unit_price i.product
                 reference := "Count adjustment: " ++ c.name
                 notes := "Automatic adjustment from inventory count " ++ c.name
                 performed_by := c.completed_by.getD c.created_by } :: txns)
      else
        processCountItems c unit_price rest

/-- `handle_completed_count` (`signals.py` 73–100): the `post_save` handler
on `InventoryCount`.  It runs on every save of a count whose status is
completed and whose completed date is set — it does not check that the
status just changed — and processes the items with `is_counted = True`.
Returns the list of created adjustment transactions. -/
def handle_completed_count (inst : InventoryCount)
    (unit_price : ProductId → Qty) : Except PyError (List InventoryTransaction) :=
  if inst.status = .completed ∧ inst.completed_date ≠ none then
    processCountItems inst unit_price (inst.count_items.filter (·.is_counted))
  else
    .ok []

/-- An update save of an `InventoryCount`: the `pre_save` handler rewrites
the instance, the row is stored, then the `post_save` handler runs on the
stored instance.  Returns the stored row and the created transactions. -/
def saveInventoryCount (original inst : InventoryCount) (now : Nat)
    (unit_price : ProductId → Qty) :
    InventoryCount × Except PyError (List InventoryTransaction) :=
  let stored := set_completed_date original inst now
  (stored, handle_completed_count stored unit_price)

/-- The adjustment transaction the specification prescribes for a counted
item with non-zero variance: quantity is the signed variance, the unit
price is the current price of the product, the location is the location of
the count, and the actor is completed_by falling back to created_by. -/
def adjustmentTxn (c : InventoryCount) (unit_price : ProductId → Qty)
    (i : InventoryCountItem) : InventoryTransaction :=
  { transaction_type := .adjustment
    product := i.product
    location := c.location
    destination_location := none
    quantity := i.variance.getD 0
    unit_price := unit_price i.product
    reference := "Count adjustment: " ++ c.name
    notes := "Automatic adjustment from inventory count " ++ c.name
    performed_by := c.completed_by.getD c.created_by }

/-- The reconciliation loop, characterised: when every counted item has a
counted quantity, the loop succeeds and creates exactly one adjustment
transaction per item that is counted with non-zero variance, in item
order. -/
theorem processCountItems_eq (c : InventoryCount) (up : ProductId → Qty)
    (l : List InventoryCountItem)
    (h : ∀ i ∈ l, i.is_counted = true → i.counted_quantity ≠ none) :
    processCountItems c up (l.filter (·.is_counted))
      = .ok ((l.filter fun i => i.is_counted && decide (i.variance ≠ some 0)).map
          (adjustmentTxn c up)) := by
  induction l with
  | nil => rfl
  | cons i rest ih =>
    have hrest : ∀ j ∈ rest, j.is_counted = true → j.counted_quantity ≠ none :=
      fun j hj => h j (List.mem_cons_of_mem i hj)
    have ihr := ih hrest
    by_cases hc : i.is_counted = true
    · have hq := h i (List.mem_cons_self i rest) hc
      obtain ⟨q, hq2⟩ := Option.ne_none_iff_exists'.mp hq
      have hvar : i.variance = some (q - i.expected_quantity) := by
        simp [InventoryCountItem.variance, hc, hq2]
      by_cases hz : q - i.expected_quantity = 0
      · simp [List.filter_cons, hc, hvar, hz, processCountItems, ihr]
      · simp [List.filter_cons, hc, hvar, hz, processCountItems, ihr,
          adjustmentTxn]
    · have hc2 : i.is_counted = false := by simpa using hc
      simp [List.filter_cons, hc2, ihr]

/-- The post-save handler, characterised on a completed count with a set
completed date whose counted items all carry a counted quantity. -/
theorem handle_completed_count_eq (c : InventoryCount) (up : ProductId → Qty)
    (h2 : c.status = .completed) (h4 : c.completed_date ≠ none)
    (h3 : ∀ i ∈ c.count_items, i.is_counted = true → i.counted_quantity ≠ none) :
    handle_completed_count c up
      = .ok ((c.count_items.filter fun i =>
          i.is_counted && decide (i.variance ≠ some 0)).map (adjustmentTxn c up)) := by
  rw [handle_completed_count, if_pos ⟨h2, h4⟩, processCountItems_eq c up _ h3]

/-- The prescribed adjustment does not depend on the completed date of the
count. -/
theorem adjustmentTxn_completed_date (c : InventoryCount) (v : Option Nat)
    (up : ProductId → Qty) :
    adjustmentTxn { c with completed_date := v } up = adjustmentTxn c up := rfl

/-- C6: an update save that moves a count from a non-completed status to
completed sets completed_date to the current time, and creates exactly one
adjustment transaction for each item with is_counted = true and non-zero
variance — quantity the signed variance, unit price the current product
price, location the location of the count — and none for items with zero
variance or is_counted = false. -/
theorem c6_completing_count_reconciles (original inst : InventoryCount)
    (now : Nat) (up : ProductId → Qty)
    (h1 : original.status ≠ .completed)
    (h2 : inst.status = .completed)
    (h3 : ∀ i ∈ inst.count_items, i.is_counted = true → i.counted_quantity ≠ none) :
    (saveInventoryCount original inst now up).1.completed_date = some now
    ∧ (saveInventoryCount original inst now up).2
        = .ok ((inst.count_items.filter fun i =>
            i.is_counted && decide (i.variance ≠ some 0)).map
            (adjustmentTxn inst up)) := by
  have hset : set_completed_date original inst now
      = { inst with completed_date := some now } := by
    rw [set_completed_date, if_pos ⟨h1, h2⟩]
  constructor
  · show (set_completed_date original inst now).completed_date = some now
    rw [hset]
  · show handle_completed_count (set_completed_date original inst now) up = _
    rw [hset,
      handle_completed_count_eq { inst with completed_date := some now } up h2
        (by simp) h3,
      adjustmentTxn_completed_date]

/-- The items of the C6 scenario: expected 10 counted 8, and expected 5
counted 5, both marked counted. -/
def c6items : List InventoryCountItem :=
  [ { product := 1, expected_quantity := 10, counted_quantity := some 8,
      is_counted := true, counted_by := some 5, counted_at := some 40, notes := "" },
    { product := 2, expected_quantity := 5, counted_quantity := some 5,
      is_counted := true, counted_by := some 5, counted_at := some 41, notes := "" } ]

/-- The stored row of the C6 scenario: the count still in progress. -/
def c6original : InventoryCount :=
  { name := "June count", location := 3, status := .in_progress,
    scheduled_date := none, completed_date := none, created_by := 7,
    completed_by := some 8, notes := "", count_items := c6items }

/-- The C6 scenario save: the same count moved to completed. -/
def c6updated : InventoryCount :=
  { c6original with status := .completed }

/-- Every product currently costs 4 in the count witnesses. -/
def c6price : ProductId → Qty := fun _ => 4

/-- Witness for C6: completing the count with items (expected 10, counted 8)
and (expected 5, counted 5) stamps the completion time and creates exactly
one adjustment transaction, of quantity −2 for product 1; the zero-variance
item creates none. -/
theorem c6_completing_count_reconciles_witness :
    (saveInventoryCount c6original c6updated 42 c6price).1.completed_date = some 42
    ∧ (saveInventoryCount c6original c6updated 42 c6price).2
        = .ok [ { transaction_type := .adjustment, product := 1, location := 3,
                  destination_location := none, quantity := -2, unit_price := 4,
                  reference := "Count adjustment: June count",
                  notes := "Automatic adjustment from inventory count June count",
                  performed_by := 8 } ] := by
  have h := c6_completing_count_reconciles c6original c6updated 42 c6price
    (by decide) (by decide) (by decide)
  refine ⟨h.1, h.2.trans ?_⟩
  norm_num [c6updated, c6original, c6items, c6price, adjustmentTxn,
    InventoryCountItem.variance]
  decide

/-- C10: the post-save handler does not check that the status just changed,
so every save of a count whose status is completed and whose completed date
is set re-runs the reconciliation pass, creating one more adjustment
transaction for every counted item with non-zero variance — whatever the
previously stored status was. -/
theorem c10_reconciliation_reruns_on_every_save (original inst : InventoryCount)
    (now : Nat) (up : ProductId → Qty)
    (h2 : inst.status = .completed)
    (h4 : inst.completed_date ≠ none)
    (h3 : ∀ i ∈ inst.count_items, i.is_counted = true → i.counted_quantity ≠ none) :
    (saveInventoryCount original inst now up).2
      = .ok ((inst.count_items.filter fun i =>
          i.is_counted && decide (i.variance ≠ some 0)).map (adjustmentTxn inst up)) := by
  show handle_completed_count (set_completed_date original inst now) up = _
  by_cases hcond : original.status ≠ .completed ∧ inst.status = .completed
  · rw [set_completed_date, if_pos hcond,
      handle_completed_count_eq { inst with completed_date := some now } up h2
        (by simp) h3,
      adjustmentTxn_completed_date]
  · rw [set_completed_date, if_neg hcond, handle_completed_count_eq inst up h2 h4 h3]

/-- The count of the C10 witness: already completed and already stamped,
with one counted item of variance +3. -/
def c10count : InventoryCount :=
  { name := "July count", location := 2, status := .completed,
    scheduled_date := none, completed_date := some 41, created_by := 7,
    completed_by := some 8, notes := "",
    count_items := [ { product := 4, expected_quantity := 6,
                       counted_quantity := some 9, is_counted := true,
                       counted_by := some 5, counted_at := some 40, notes := "" } ] }

/-- Witness for C10: re-saving the already-completed count (original row and
saved instance identical) creates one more adjustment transaction of
quantity 3. -/
theorem c10_reconciliation_reruns_witness :
    (saveInventoryCount c10count c10count 99 c6price).2
      = .ok [ { transaction_type := .adjustment, product := 4, location := 2,
                destination_location := none, quantity := 3, unit_price := 4,
                reference := "Count adjustment: July count",
                notes := "Automatic adjustment from inventory count July count",
                performed_by := 8 } ] := by
  have h := c10_reconciliation_reruns_on_every_save c10count c10count 99 c6price
    (by decide) (by decide) (by decide)
  refine h.trans ?_
  norm_num [c10count, c6price, adjustmentTxn, InventoryCountItem.variance]
  decide

/-! ## The order workflow (claims C2, C7)

`Order` and `OrderItem` (`models.py`), and the `place` and `receive`
actions of `OrderViewSet` (`views.py` 730–748 and 756–797). -/

/-- `Order.STATUS_CHOICES`. -/
inductive OrderStatus
  | draft
  | pending
  | placed
  | received
  | cancelled
deriving DecidableEq

/-- An `OrderItem` row: the fields the receive path reads. -/
structure OrderItem where
  product : ProductId
  quantity : Qty
  unit_price : Qty
  received_quantity : Qty
deriving DecidableEq

/-- The `Order` model of `models.py` with its owned items.  Its complete
field list is order_number, supplier, status, order_date,
expected_delivery_date, actual_delivery_date, shipping_cost, tax, discount,
notes, created_by, updated_by plus the `BaseModel` audit columns; there is
no delivery_location field and no received_date field. -/
structure Order where
  order_number : String
  supplier : Nat
  status : OrderStatus
  order_date : Option Nat
  expected_delivery_date : Option Nat
  actual_delivery_date : Option Nat
  shipping_cost : Qty
  tax : Qty
  discount : Qty
  notes : String
  created_by : UserId
  updated_by : Option UserId
  items : List OrderItem
deriving DecidableEq

/-- Python attribute access `order.delivery_location`: `models.py` defines
no such field on `Order` (see the field list on the structure above), so
the access raises `AttributeError`. -/
def Order.attr_delivery_location (_ : Order) : Except PyError LocationId :=
  .error .attributeError

/-- `OrderViewSet.place` (`views.py` 730–748): only a draft or pending
order can be placed; on success the status becomes placed and order_date
is assigned the current server date unconditionally — the source has no
guard preserving an existing order_date. -/
def OrderViewSet.place (order : Order) (today : Nat) : Except String Order :=
  if order.status ≠ .draft ∧ order.status ≠ .pending then
    .error "Only draft or pending orders can be placed"
  else
    .ok { order with status := .placed, order_date := some today }

/-- One iteration of the receive loop of `OrderViewSet.receive` (`views.py`
771–791).  The first statement evaluates `order.delivery_location` (for the
`InventoryItem.objects.get_or_create` call), which raises; even if it did
not, the subsequent `InventoryTransaction.objects.create(inventory_item=...)`
passes a keyword that is not a field of `InventoryTransaction`, which raises
`TypeError`, and the quantity it would record is `item.quantity`, not
`item.received_quantity`. -/
def receiveLoopBody (order : Order) (_ : OrderItem) :
    Except PyError InventoryTransaction := do
  let _ ← order.attr_delivery_location
  .error .typeError

/-- The outcome of a call to the receive action. -/
inductive ReceiveOutcome
  | badRequest (msg : String)
  | internalError (e : PyError)
  | completed (order : Order) (created : List InventoryTransaction)
deriving DecidableEq

/-- `create_count_items_for_received_order` (`signals.py` 122–158): the
`post_save` handler on `Order`.  When the saved order has status received
and a set actual_delivery_date, it loops over the items with
`received_quantity > 0`; the first iteration evaluates
`instance.delivery_location`, which `Order` does not define, raising
`AttributeError`.  With no such item the loop body never runs. -/
def create_count_items_for_received_order (order : Order) :
    Except PyError (List InventoryTransaction) :=
  if order.status = .received ∧ order.actual_delivery_date ≠ none then
    match order.items.filter (fun i => decide (0 < i.received_quantity)) with
    | [] => .ok []
    | _ :: _ =>
      match order.attr_delivery_location with
      | .error e => .error e
      | .ok _ => .ok []
  else
    .ok []

/-- `OrderViewSet.receive` (`views.py` 756–797): reject unless the status
is placed; otherwise run the per-item loop inside an atomic block — any
raise rolls the whole block back — then store status = received (the
`order.received_date` assignment writes a non-field attribute, so no stored
column changes; actual_delivery_date in particular stays as it was) and run
the `post_save` handler on the saved order. -/
def OrderViewSet.receive (order : Order) : ReceiveOutcome :=
  if order.status ≠ .placed then
    .badRequest "Only placed orders can be received"
  else
    match order.items.mapM (receiveLoopBody order) with
    | .error e => .internalError e
    | .ok txns =>
      let saved := { order with status := .received }
      match create_count_items_for_received_order saved with
      | .error e => .internalError e
      | .ok more => .completed saved (txns ++ more)

/-- The placed order of the C2 scenario: one item, ordered quantity 10, of
which 4 were received. -/
def c2order : Order :=
  { order_number := "ORD-1", supplier := 1, status := .placed,
    order_date := some 90, expected_delivery_date := some 99,
    actual_delivery_date := none, shipping_cost := 0, tax := 0, discount := 0,
    notes := "", created_by := 7, updated_by := none,
    items := [ { product := 1, quantity := 10, unit_price := 3,
                 received_quantity := 4 } ] }

/-- C2: receiving a placed order with an item of positive received quantity
does not create the received transactions the claim describes — the loop
raises AttributeError on `order.delivery_location`, a field the Order model
does not define, the atomic block rolls back, and the order keeps status
placed with actual_delivery_date unset.  The rejection half of the claim
does hold: receive on a non-placed order is a bad request. -/
theorem c2_receive_crashes_on_missing_field :
    OrderViewSet.receive c2order = .internalError .attributeError
    ∧ OrderViewSet.receive { c2order with status := .received }
        = .badRequest "Only placed orders can be received" := by
  constructor <;> rfl

/-- The draft order of the C7 counterexample, with order_date already set
to day 50. -/
def c7order : Order :=
  { order_number := "ORD-2", supplier := 1, status := .draft,
    order_date := some 50, expected_delivery_date := none,
    actual_delivery_date := none, shipping_cost := 0, tax := 0, discount := 0,
    notes := "", created_by := 7, updated_by := none, items := [] }

/-- Counterexample to C7 as stated: placing a draft order whose order_date
is already set to day 50 on day 100 overwrites order_date with day 100 —
the source assigns today unconditionally, it does not preserve an already
set order_date. -/
theorem c7_place_overwrites_order_date :
    c7order.order_date = some 50
    ∧ OrderViewSet.place c7order 100
        = .ok { c7order with status := .placed, order_date := some 100 }
    ∧ (OrderViewSet.place c7order 100
        = .ok { c7order with status := .placed } → False) := by
  refine ⟨rfl, rfl, ?_⟩
  intro h
  simp only [OrderViewSet.place, c7order] at h
  exact absurd (Except.ok.inj h) (by decide)

/-- C7 amended: place succeeds exactly from draft or pending, setting
status = placed and order_date = today unconditionally (overwriting any
existing order_date); from any other status it is rejected with a client
error and the order is untouched. -/
theorem c7_place_amended (order : Order) (today : Nat) :
    (order.status = .draft ∨ order.status = .pending →
      OrderViewSet.place order today
        = .ok { order with status := .placed, order_date := some today })
    ∧ (order.status ≠ .draft ∧ order.status ≠ .pending →
      OrderViewSet.place order today
        = .error "Only draft or pending orders can be placed") := by
  constructor
  · intro h
    rw [OrderViewSet.place, if_neg]
    intro hc
    rcases h with h | h
    · exact hc.1 h
    · exact hc.2 h
  · intro h
    rw [OrderViewSet.place, if_pos h]

/-- Witness for the amended C7: placing the draft order on day 100 yields a
placed order dated day 100, and placing the result again is rejected. -/
theorem c7_place_amended_witness :
    OrderViewSet.place c7order 100
      = .ok { c7order with status := .placed, order_date := some 100 }
    ∧ OrderViewSet.place { c7order with status := .placed, order_date := some 100 } 100
      = .error "Only draft or pending orders can be placed" := by
  refine ⟨(c7_place_amended c7order 100).1 (Or.inl rfl), ?_⟩
  exact (c7_place_amended _ 100).2 (by decide)

/-! ## Marking a count item counted (claim C8)

`InventoryCountItemUpdateSerializer` (`serializers.py` 664–704): its
`validate` reads each value from the update payload, falling back to the
stored instance when the payload omits the key, and its `update` stamps
counted_at when the payload marks a not-yet-counted item as counted. -/

/-- An update payload for a count item.  The serializer accepts the fields
counted_quantity, is_counted, counted_by, notes; an outer `none` means the
key is absent from the payload (Python `data.get(key, fallback)` then takes
the fallback), and for the two nullable columns the inner option is the
value itself. -/
structure CountItemPatch where
  counted_quantity : Option (Option Qty)
  is_counted : Option Bool
  counted_by : Option (Option UserId)
  notes : Option String
deriving DecidableEq

/-- `InventoryCountItemUpdateSerializer.validate` (`serializers.py`
674–693): with the effective values (payload value, or instance value when
the key is absent), is_counted = true demands a non-null counted_quantity
and a non-null counted_by. -/
def InventoryCountItemUpdateSerializer.validate (inst : InventoryCountItem)
    (d : CountItemPatch) : Except String Unit :=
  if d.is_counted.getD inst.is_counted then
    if d.counted_quantity.getD inst.counted_quantity = none then
      .error "A counted quantity is required when marking as counted."
    else if d.counted_by.getD inst.counted_by = none then
      .error "A counted by user is required when marking as counted."
    else
      .ok ()
  else
    .ok ()

/-- `InventoryCountItemUpdateSerializer.update` (`serializers.py` 695–704):
if the payload carries a true is_counted and the instance is not yet
counted, counted_at is set to now; then every field present in the payload
is stored. -/
def InventoryCountItemUpdateSerializer.update (inst : InventoryCountItem)
    (d : CountItemPatch) (now : Nat) : InventoryCountItem :=
  { inst with
    counted_quantity := d.counted_quantity.getD inst.counted_quantity
    is_counted := d.is_counted.getD inst.is_counted
    counted_by := d.counted_by.getD inst.counted_by
    notes := d.notes.getD inst.notes
    counted_at :=
      if d.is_counted.getD false = true ∧ inst.is_counted = false then some now
      else inst.counted_at }

/-- The `MinValueValidator(0)` attached to `InventoryCountItem.counted_quantity`
in `models.py`, as the `ModelSerializer` copies it onto the generated
serializer field (the same mechanism as for the transaction quantity field
above).  Field-level validators run on the keys present in the payload; the
column is nullable, so an explicit null skips the validator. -/
def countedQuantityMinValueValidator (d : CountItemPatch) : Except String Unit :=
  match d.counted_quantity with
  | some (some q) =>
    if q < 0 then .error "Ensure this value is greater than or equal to 0."
    else .ok ()
  | _ => .ok ()

/-- A PATCH of a count item through the update serializer: field-level
validation first (the inherited minimum-value validator on
counted_quantity), then the serializer-level validate; only on success is
the row updated. -/
def markCountItem (inst : InventoryCountItem) (d : CountItemPatch) (now : Nat) :
    Except String InventoryCountItem :=
  match countedQuantityMinValueValidator d with
  | .error e => .error e
  | .ok _ =>
    match InventoryCountItemUpdateSerializer.validate inst d with
    | .error e => .error e
    | .ok _ => .ok (InventoryCountItemUpdateSerializer.update inst d now)

/-- C8: marking a count item counted is rejected with a validation error —
leaving the stored row, in particular is_counted = false, untouched —
unless the effective counted_quantity and counted_by are both non-null;
and whenever such an update succeeds while is_counted moves from false to
true, counted_at is set to the current time. -/
theorem c8_marking_counted_requires_fields (inst : InventoryCountItem)
    (d : CountItemPatch) (now : Nat) :
    (d.is_counted.getD inst.is_counted = true ∧
        (d.counted_quantity.getD inst.counted_quantity = none ∨
         d.counted_by.getD inst.counted_by = none) →
      ∃ msg, markCountItem inst d now = .error msg)
    ∧ (∀ s, markCountItem inst d now = .ok s →
        d.is_counted = some true → inst.is_counted = false →
        s.is_counted = true ∧ s.counted_at = some now) := by
  constructor
  · rintro ⟨hcounted, hmiss⟩
    rw [markCountItem]
    cases hfv : countedQuantityMinValueValidator d with
    | error e => exact ⟨e, rfl⟩
    | ok u =>
      rw [InventoryCountItemUpdateSerializer.validate, if_pos hcounted]
      rcases hmiss with hm | hm
      · rw [if_pos hm]
        exact ⟨_, rfl⟩
      · by_cases hq : d.counted_quantity.getD inst.counted_quantity = none
        · rw [if_pos hq]
          exact ⟨_, rfl⟩
        · rw [if_neg hq, if_pos hm]
          exact ⟨_, rfl⟩
  · intro s hs hic hnot
    rw [markCountItem] at hs
    cases hfv : countedQuantityMinValueValidator d with
    | error e =>
      rw [hfv] at hs
      exact absurd hs (by simp)
    | ok u =>
      rw [hfv] at hs
      cases hv : InventoryCountItemUpdateSerializer.validate inst d with
      | error e =>
        rw [hv] at hs
        exact absurd hs (by simp)
      | ok u2 =>
        rw [hv] at hs
        have hsEq : s = InventoryCountItemUpdateSerializer.update inst d now :=
          (Except.ok.inj hs).symm
        subst hsEq
        constructor
        · show d.is_counted.getD inst.is_counted = true
          rw [hic]
          rfl
        · show (if d.is_counted.getD false = true ∧ inst.is_counted = false
              then some now else inst.counted_at) = some now
          rw [if_pos ⟨by rw [hic]; rfl, hnot⟩]

/-- The not-yet-counted item of the C8 witness. -/
def c8item : InventoryCountItem :=
  { product := 1, expected_quantity := 10, counted_quantity := none,
    is_counted := false, counted_by := none, counted_at := none, notes := "" }

/-- The C8 witness payload of the specification scenario: is_counted = true
with counted_quantity null and no counted_by. -/
def c8patch : CountItemPatch :=
  { counted_quantity := some none, is_counted := some true,
    counted_by := none, notes := none }

/-- A well-formed C8 payload: is_counted = true with a counted quantity and
a counter. -/
def c8goodPatch : CountItemPatch :=
  { counted_quantity := some (some 7), is_counted := some true,
    counted_by := some (some 5), notes := none }

/-- A payload marking the item counted with a negative counted quantity,
which the field-level minimum-value validator rejects. -/
def c8negPatch : CountItemPatch :=
  { counted_quantity := some (some (-3)), is_counted := some true,
    counted_by := some (some 5), notes := none }

/-- Witness for C8: the null-quantity payload is rejected with the
counted_quantity validation message, the well-formed payload stores the row
with counted_at stamped to the current time, and a negative counted
quantity is stopped by the inherited field validator before the
serializer-level validate runs. -/
theorem c8_marking_counted_witness :
    (∃ msg, markCountItem c8item c8patch 42 = .error msg)
    ∧ markCountItem c8item c8patch 42
        = .error "A counted quantity is required when marking as counted."
    ∧ (∃ s, markCountItem c8item c8goodPatch 42 = .ok s ∧ s.is_counted = true
        ∧ s.counted_at = some 42)
    ∧ markCountItem c8item c8negPatch 42
        = .error "Ensure this value is greater than or equal to 0." := by
  have hok : markCountItem c8item c8goodPatch 42
      = .ok (InventoryCountItemUpdateSerializer.update c8item c8goodPatch 42) := by
    decide
  have hstamp := (c8_marking_counted_requires_fields c8item c8goodPatch 42).2 _
    hok rfl rfl
  exact ⟨(c8_marking_counted_requires_fields c8item c8patch 42).1 (by decide),
    by decide, ⟨_, hok, hstamp.1, hstamp.2⟩, by decide⟩

end CocktailAI
